import Mathlib

/-!
Verification development for the voice-proxy WebSocket handler
(`websocket_handler.py`, with agent records from `managers.py` and process
configuration from `config.py`).  The Python code is shallowly embedded:
dicts become insertion-ordered association lists over a `PyVal` value type,
`json.loads` becomes an executable parser, the network and the peer sockets
become explicit input streams and oracles, and each handler method becomes a
pure Lean function producing the session's observable trace.
-/

namespace VoiceProxy

/-- Python/JSON values as they appear in the handler's dicts and messages.
`dtime` stands in for `datetime.datetime` objects stored in agent records. -/
inductive PyVal where
  | null : PyVal
  | bool (b : Bool) : PyVal
  | num (q : ℚ) : PyVal
  | str (s : String) : PyVal
  | arr (xs : List PyVal) : PyVal
  | obj (fields : List (String × PyVal)) : PyVal
  | dtime (t : Nat) : PyVal

/-- A Python dict with string keys, modelled as an insertion-ordered
association list (first binding wins on lookup). -/
abbrev Dict := List (String × PyVal)

/-- Lookup `d[k]` / `d.get(k)`: the first binding for `key`. -/
def dictLookup : Dict → String → Option PyVal
  | [], _ => none
  | (k, v) :: rest, key => if k = key then some v else dictLookup rest key

/-- Lookup with default: `d.get(k, default)`. -/
def dictGetD (d : Dict) (key : String) (dflt : PyVal) : PyVal :=
  (dictLookup d key).getD dflt

/-- Python truthiness of a value (`if v:`). -/
def pyTruthy : PyVal → Bool
  | .null => false
  | .bool b => b
  | .num q => q != 0
  | .str s => s != ""
  | .arr xs => !xs.isEmpty
  | .obj fields => !fields.isEmpty
  | .dtime _ => true

/-- Python truthiness of an optional value (`None` is falsy). -/
def pyTruthyOpt : Option PyVal → Bool
  | none => false
  | some v => pyTruthy v

/-- Skip JSON whitespace. -/
def skipWs : List Char → List Char
  | [] => []
  | c :: cs => if c = ' ' ∨ c = '\t' ∨ c = '\n' ∨ c = '\r' then skipWs cs else c :: cs

/-- Split off a maximal run of decimal digits. -/
def spanDigits : List Char → List Char × List Char
  | [] => ([], [])
  | c :: cs =>
    if c.isDigit then
      let (ds, rest) := spanDigits cs
      (c :: ds, rest)
    else ([], c :: cs)

/-- Numeric value of a digit run. -/
def digitsVal (ds : List Char) : Nat :=
  ds.foldl (fun a c => a * 10 + (c.toNat - 48)) 0

/-- Value of a hexadecimal digit. -/
def hexVal (c : Char) : Option Nat :=
  if c.isDigit then some (c.toNat - 48)
  else if 'a' ≤ c ∧ c ≤ 'f' then some (c.toNat - 87)
  else if 'A' ≤ c ∧ c ≤ 'F' then some (c.toNat - 55)
  else none

/-- Parse a JSON number (sign, integer part, optional fraction and exponent)
into a rational. -/
def parseNumber (cs : List Char) : Option (PyVal × List Char) := do
  let (neg, cs1) : Bool × List Char :=
    match cs with
    | '-' :: rest => (true, rest)
    | _ => (false, cs)
  let (ip, cs2) := spanDigits cs1
  if ip.isEmpty then none else
  let (fq, cs3) ← (match cs2 with
    | '.' :: rest =>
      let (fp, r) := spanDigits rest
      if fp.isEmpty then none
      else some (((digitsVal fp : ℚ) / ((10 : ℚ) ^ fp.length), r))
    | _ => some ((0 : ℚ), cs2))
  let (eq10, cs4) ← (match cs3 with
    | 'e' :: rest | 'E' :: rest =>
      let (esgn, r1) : Int × List Char :=
        match rest with
        | '+' :: r => (1, r)
        | '-' :: r => (-1, r)
        | _ => (1, rest)
      let (ed, r2) := spanDigits r1
      if ed.isEmpty then none
      else some (((10 : ℚ) ^ (esgn * (digitsVal ed : Int)), r2))
    | _ => some ((1 : ℚ), cs3))
  let mag : ℚ := ((digitsVal ip : ℚ) + fq) * eq10
  some (.num (if neg then -mag else mag), cs4)

/-- Parse the body of a JSON string after the opening quote, handling the
standard escapes. -/
def parseStrChars : Nat → List Char → Option (List Char × List Char)
  | 0, _ => none
  | fuel + 1, cs =>
    match cs with
    | [] => none
    | '"' :: rest => some ([], rest)
    | '\\' :: esc :: rest =>
      let dec? : Option (Char × List Char) :=
        match esc, rest with
        | '"', r => some ('"', r)
        | '\\', r => some ('\\', r)
        | '/', r => some ('/', r)
        | 'n', r => some ('\n', r)
        | 't', r => some ('\t', r)
        | 'r', r => some ('\r', r)
        | 'b', r => some (Char.ofNat 8, r)
        | 'f', r => some (Char.ofNat 12, r)
        | 'u', h1 :: h2 :: h3 :: h4 :: r =>
          match hexVal h1, hexVal h2, hexVal h3, hexVal h4 with
          | some a, some b, some c, some d =>
            some (Char.ofNat (((a * 16 + b) * 16 + c) * 16 + d), r)
          | _, _, _, _ => none
        | _, _ => none
      match dec? with
      | some (c, r) => do
        let (s, rest2) ← parseStrChars fuel r
        some (c :: s, rest2)
      | none => none
    | c :: rest => do
      let (s, rest2) ← parseStrChars fuel rest
      some (c :: s, rest2)

mutual

/-- Parse one JSON value (the work done by `json.loads` on a document body). -/
def parseVal : Nat → List Char → Option (PyVal × List Char)
  | 0, _ => none
  | fuel + 1, cs =>
    match skipWs cs with
    | 'n' :: 'u' :: 'l' :: 'l' :: rest => some (.null, rest)
    | 't' :: 'r' :: 'u' :: 'e' :: rest => some (.bool true, rest)
    | 'f' :: 'a' :: 'l' :: 's' :: 'e' :: rest => some (.bool false, rest)
    | '"' :: rest => do
      let (s, r) ← parseStrChars (rest.length + 1) rest
      some (.str (String.mk s), r)
    | '[' :: rest =>
      (match skipWs rest with
       | ']' :: r => some (.arr [], r)
       | cs2 => do
         let (xs, r) ← parseElems fuel cs2
         some (.arr xs, r))
    | '{' :: rest =>
      (match skipWs rest with
       | '}' :: r => some (.obj [], r)
       | cs2 => do
         let (fs, r) ← parseMembers fuel cs2
         some (.obj fs, r))
    | cs1 => parseNumber cs1

/-- Parse comma-separated array elements up to the closing bracket. -/
def parseElems : Nat → List Char → Option (List PyVal × List Char)
  | 0, _ => none
  | fuel + 1, cs => do
    let (v, r1) ← parseVal fuel cs
    match skipWs r1 with
    | ',' :: r2 => do
      let (xs, r3) ← parseElems fuel r2
      some (v :: xs, r3)
    | ']' :: r2 => some ([v], r2)
    | _ => none

/-- Parse comma-separated object members up to the closing brace. -/
def parseMembers : Nat → List Char → Option (Dict × List Char)
  | 0, _ => none
  | fuel + 1, cs =>
    match skipWs cs with
    | '"' :: rest => do
      let (k, r1) ← parseStrChars (rest.length + 1) rest
      match skipWs r1 with
      | ':' :: r2 => do
        let (v, r3) ← parseVal fuel r2
        match skipWs r3 with
        | ',' :: r4 => do
          let (fs, r5) ← parseMembers fuel r4
          some ((String.mk k, v) :: fs, r5)
        | '}' :: r4 => some ([(String.mk k, v)], r4)
        | _ => none
      | _ => none
    | _ => none

end

/-- Model of `json.loads`: parse a complete JSON document (trailing
whitespace allowed, trailing garbage rejected). -/
def jsonLoads (s : String) : Option PyVal :=
  match parseVal (2 * s.length + 8) s.data with
  | some (v, rest) => if (skipWs rest).isEmpty then some v else none
  | none => none

/-- The process configuration keys consulted by the handler (config.py).
Every value is loaded from an environment variable as a string; a missing
variable loads as the default, which is `""` for all keys below except
`model_deployment_name` (default `"gpt-4o"`), so "unset" and "empty" are
the same state. -/
structure Config where
  azure_ai_resource_name : String
  azure_ai_project_name : String
  agent_id : String
  azure_openai_api_key : String
  model_deployment_name : String

/-- Model of `_get_agent_id_from_client` (websocket_handler.py lines 67-79):
read the first client frame; when it is truthy, parses as JSON of type
`session.update`, and has a `session.agent_id` entry, return that value;
on no frame, falsy frame, parse failure, or any other shape return `None`
(every exception is caught inside the method).  The argument is the result
of `client_ws.receive`, with `none` standing for both a `None` return and
an exception raised while receiving. -/
def get_agent_id_from_client (firstMessage : Option String) : Option PyVal :=
  match firstMessage with
  | none => none
  | some s =>
    if s = "" then none
    else
      match jsonLoads s with
      | none => none
      | some (.obj fields) =>
        match dictLookup fields "type" with
        | some (.str t) =>
          if t = "session.update" then
            match dictGetD fields "session" (.obj []) with
            | .obj sessionFields =>
              match dictLookup sessionFields "agent_id" with
              | some .null => none
              | v => v
            | _ => none
          else none
        | _ => none
      | some _ => none

/-- Rendering of a value inside a Python f-string (`f"...x..."` with x in
braces).  In the handler the interpolated values are registry keys and model
names, which are strings; the remaining cases are given a simple printable
form. -/
def pyFStr : PyVal → String
  | .str s => s
  | .bool true => "True"
  | .bool false => "False"
  | .null => "None"
  | .num q => toString q
  | .arr _ => "[...]"
  | .obj _ => "\x7b...\x7d"
  | .dtime t => toString t

/-- Rendering of an `Optional` value inside an f-string (`str(None)`). -/
def pyFStrOpt : Option PyVal → String
  | none => "None"
  | some v => pyFStr v

/-- The `base_url` f-string of `_build_azure_url` (lines 116-121). -/
def azureBaseUrl (cfg : Config) (uuidStr : String) : String :=
  "wss://" ++ cfg.azure_ai_resource_name ++
    ".cognitiveservices.azure.com/voice-agent/realtime?api-version=2025-05-01-preview" ++
    "&x-ms-client-request-id=" ++ uuidStr ++
    "&agent-project-name=" ++ cfg.azure_ai_project_name

/-- The two fallback branches of `_build_azure_url` (lines 129-133), taken
when no truthy profile was resolved: a configured (non-empty) default agent
id wins over the default model name. -/
def buildUrlFallback (cfg : Config) (base_url : String) : String :=
  if cfg.agent_id ≠ "" then base_url ++ "&agent-id=" ++ cfg.agent_id
  else base_url ++ "&model=" ++ cfg.model_deployment_name

/-- Model of `_build_azure_url` (lines 112-133). -/
def build_azure_url (cfg : Config) (agentId : Option PyVal)
    (agentConfig : Option Dict) (uuidStr : String) : String :=
  let base_url := azureBaseUrl cfg uuidStr
  match agentConfig with
  | some d =>
    if d.isEmpty then buildUrlFallback cfg base_url
    else if pyTruthyOpt (dictLookup d "is_azure_agent") then
      base_url ++ "&agent-id=" ++ pyFStrOpt agentId
    else
      base_url ++ "&model=" ++ pyFStr (dictGetD d "model" (.str cfg.model_deployment_name))
  | none => buildUrlFallback cfg base_url

/-- The fixed `session` dict built at the top of `_send_initial_config`
(lines 139-148). -/
def baseSessionFields : Dict :=
  [("modalities", .arr [.str "text", .str "audio"]),
   ("turn_detection", .obj [("type", .str "azure_semantic_vad")]),
   ("input_audio_noise_reduction", .obj [("type", .str "azure_deep_noise_suppression")]),
   ("input_audio_echo_cancellation", .obj [("type", .str "server_echo_cancellation")]),
   ("avatar", .obj [("character", .str "lisa"), ("style", .str "casual-sitting")])]

/-- Wrapper putting a session dict inside the `session.update` envelope of
the `config_message` dict literal (lines 139-148). -/
def mkSessionUpdate (s : Dict) : PyVal :=
  .obj [("type", .str "session.update"), ("session", .obj s)]

/-- The four entries appended to the session dict by lines 150-158 for a
locally-defined profile — `model` is read with a `.get` default, the other
three with unguarded indexing, so a missing key is a `KeyError`. -/
def overrideFields (cfg : Config) (d : Dict) : Except String Dict :=
  match dictLookup d "instructions", dictLookup d "temperature",
        dictLookup d "max_tokens" with
  | some i, some t, some k =>
    .ok [("model", dictGetD d "model" (.str cfg.model_deployment_name)),
         ("instructions", i), ("temperature", t),
         ("max_response_output_tokens", k)]
  | _, _, _ => .error "KeyError"

/-- The `config_message` value that `_send_initial_config` (lines 135-160)
sends, or the `KeyError` raised by its unguarded profile accesses: the
override entries are appended only when a profile is present (truthy) and
not marked `is_azure_agent`. -/
def initialConfigMessage (cfg : Config) (agentConfig : Option Dict) :
    Except String PyVal :=
  match agentConfig with
  | some d =>
    if !d.isEmpty && !(pyTruthyOpt (dictLookup d "is_azure_agent")) then
      match overrideFields cfg d with
      | .ok extra => .ok (mkSessionUpdate (baseSessionFields ++ extra))
      | .error e => .error e
    else .ok (mkSessionUpdate baseSessionFields)
  | none => .ok (mkSessionUpdate baseSessionFields)

/-- Whether building the initial configuration message succeeded. -/
def configOk : Except String PyVal → Bool
  | .ok _ => true
  | .error _ => false

/-- The `session` dict of a successfully built configuration message. -/
def sessionOf : Except String PyVal → Dict
  | .ok (.obj fields) =>
    match dictLookup fields "session" with
    | some (.obj s) => s
    | _ => []
  | _ => []

/-- The `AgentManager.agents` dict: agent id → stored agent record. -/
abbrev Registry := List (String × Dict)

/-- `AgentManager.get_agent` (managers.py lines 290-300):
`self.agents.get(agent_id)`, never raising. -/
def get_agent : Registry → String → Option Dict
  | [], _ => none
  | (k, d) :: rest, key => if k = key then some d else get_agent rest key

/-- The profile resolution on line 86 of `_connect_to_azure`:
`self.agent_manager.get_agent(agent_id) if agent_id else None`.  A falsy id
(absent, empty string, JSON null, ...) skips the lookup; a non-string key
finds nothing because registry keys are strings. -/
def resolveProfile (registry : Registry) (agentId : Option PyVal) : Option Dict :=
  if pyTruthyOpt agentId then
    match agentId with
    | some (.str s) => get_agent registry s
    | _ => none
  else none

/-- Observable outcome of `_connect_to_azure` (lines 81-110): whether it
returned a socket (`ok`), whether `websockets.connect` was ever invoked
(`attempted`), how many upstream sockets were opened (`opened`; the method
closes none of them on any path), and the configuration message pushed
upstream, when one was. -/
structure ConnectResult where
  ok : Bool
  attempted : Bool
  opened : Nat
  configSent : Option PyVal
  url : String

/-- Model of `_connect_to_azure`: resolve the profile, build the URL, return
`None` on an empty API key before any network call, otherwise attempt the
connection (`connectOk` oracle) and push the initial configuration
(`sendCfgFails` oracle models a transport failure during that send; a
`KeyError` from a malformed profile is the other failure there).  Every
exception is caught and turned into a `None` return, and no path closes a
socket that was already opened. -/
def connect_to_azure (cfg : Config) (registry : Registry) (agentId : Option PyVal)
    (connectOk sendCfgFails : Bool) (uuidStr : String) : ConnectResult :=
  let agent_config := resolveProfile registry agentId
  let url := build_azure_url cfg agentId agent_config uuidStr
  if cfg.azure_openai_api_key = "" then
    { ok := false, attempted := false, opened := 0, configSent := none, url := url }
  else if !connectOk then
    { ok := false, attempted := true, opened := 0, configSent := none, url := url }
  else
    match initialConfigMessage cfg agent_config with
    | .error _ =>
      { ok := false, attempted := true, opened := 1, configSent := none, url := url }
    | .ok msg =>
      if sendCfgFails then
        { ok := false, attempted := true, opened := 1, configSent := none, url := url }
      else
        { ok := true, attempted := true, opened := 1, configSent := some msg, url := url }

/-- Model of `_forward_client_to_azure` (lines 174-186): the sequence of
messages sent upstream, given the successive results of `client_ws.receive`;
`none` stands for a `None` return (client closed) or a raised exception, and
either one ends the loop. -/
def forward_client_to_azure : List (Option String) → List String
  | [] => []
  | none :: _ => []
  | some m :: rest => m :: forward_client_to_azure rest

/-- Model of `_forward_azure_to_client` (lines 188-197): the `async for`
sends every upstream message to the client, in order, until the upstream
stream ends; the argument is the full sequence the upstream yields before
closing. -/
def forward_azure_to_client : List String → List String
  | [] => []
  | m :: rest => m :: forward_azure_to_client rest

/-- Status of one forwarding task at and after the `asyncio.wait`. -/
inductive TaskStatus where
  | running : TaskStatus
  | finished : TaskStatus
  | cancelRequested : TaskStatus
deriving DecidableEq

/-- Effect of `task.cancel()` as applied by the loop over `pending`. -/
def cancelTask : TaskStatus → TaskStatus
  | .running => .cancelRequested
  | s => s

/-- Model of `_handle_message_forwarding` (lines 162-172) at the moment
`asyncio.wait(tasks, return_when=FIRST_COMPLETED)` returns (which it does
only once at least one task has finished, normally or by exception): the
`done` tasks keep their status and every `pending` task receives
`task.cancel()`; only after that loop does the method return. -/
def handle_message_forwarding (t1 t2 : TaskStatus) : TaskStatus × TaskStatus :=
  (cancelTask t1, cancelTask t2)

/-- The `proxy.connected` acknowledgment message (lines 52-55). -/
def proxyConnectedMsg : PyVal :=
  .obj [("type", .str "proxy.connected"),
        ("message", .str "Connected to Azure Voice API")]

/-- One structured error frame as built inside `_send_error` (lines 208-216). -/
def errorFrame (message : String) : PyVal :=
  .obj [("type", .str "error"), ("error", .obj [("message", .str message)])]

/-- Model of `_send_error`: the frames it hands to `_send_message` (which
swallows send failures).  The method body is duplicated in the source — a
stray copy of the docstring and of the send expression sits below the first
send — so the same frame is sent twice. -/
def send_error (message : String) : List PyVal :=
  [errorFrame message, errorFrame message]

/-- Observable trace of one session of `handle_connection` (lines 31-65):
control messages sent to the client, the configuration message pushed
upstream, the relayed frames in each direction, and how many upstream
sockets were opened and closed by the time the procedure returned. -/
structure SessionTrace where
  toClient : List PyVal
  configSent : Option PyVal
  toAzureForwarded : List String
  toClientForwarded : List String
  openedUpstream : Nat
  closedUpstream : Nat

/-- Model of `handle_connection`: the handshake consumes the first client
frame; the Connector runs; on failure the client gets `_send_error`'s frames
and the session ends with the relay never started (the `finally` sees
`azure_ws = None`, so any socket the Connector opened internally stays
open); on success the client gets `proxy.connected`, the relay forwards the
remaining client frames and the upstream frames until either stream ends,
and the `finally` closes the upstream socket once. -/
def handle_connection (cfg : Config) (registry : Registry) (uuidStr : String)
    (connectOk sendCfgFails : Bool)
    (clientFrames : List (Option String)) (azureFrames : List String) :
    SessionTrace :=
  let firstFrame := (clientFrames.head?).getD none
  let restFrames := clientFrames.tail
  let current_agent_id := get_agent_id_from_client firstFrame
  let c := connect_to_azure cfg registry current_agent_id connectOk sendCfgFails uuidStr
  if c.ok then
    { toClient := [proxyConnectedMsg]
      configSent := c.configSent
      toAzureForwarded := forward_client_to_azure restFrames
      toClientForwarded := forward_azure_to_client azureFrames
      openedUpstream := c.opened
      closedUpstream := 1 }
  else
    { toClient := send_error "Failed to connect to Azure Voice API"
      configSent := none
      toAzureForwarded := []
      toClientForwarded := []
      openedUpstream := c.opened
      closedUpstream := 0 }

/-- Whether a frame is a structured error frame (`type` equal to `error`). -/
def isErrorFrame : PyVal → Bool
  | .obj fields =>
    (match dictLookup fields "type" with
     | some (.str t) => t = "error"
     | _ => false)
  | _ => false

/-- Number of error frames sent to the client in a session. -/
def errorFrameCount (t : SessionTrace) : Nat :=
  (t.toClient.filter isErrorFrame).length

/-- The record stored in `self.agents` by `AgentManager._create_azure_agent`
(managers.py lines 242-251). -/
def azureAgentRecord (scenario_id agent_id instructions model : String)
    (temperature max_tokens : ℚ) (created_at : Nat) : Dict :=
  [("scenario_id", .str scenario_id),
   ("azure_agent_id", .str agent_id),
   ("is_azure_agent", .bool true),
   ("instructions", .str instructions),
   ("created_at", .dtime created_at),
   ("model", .str model),
   ("temperature", .num temperature),
   ("max_tokens", .num max_tokens)]

/-- The record stored in `self.agents` by `AgentManager._create_local_agent`
(managers.py lines 273-281). -/
def localAgentRecord (scenario_id instructions model : String)
    (temperature max_tokens : ℚ) (created_at : Nat) : Dict :=
  [("scenario_id", .str scenario_id),
   ("is_azure_agent", .bool false),
   ("instructions", .str instructions),
   ("created_at", .dtime created_at),
   ("model", .str model),
   ("temperature", .num temperature),
   ("max_tokens", .num max_tokens)]

/-- A concrete configuration with a non-empty API credential. -/
def cfgKeyed : Config :=
  { azure_ai_resource_name := "res", azure_ai_project_name := "proj",
    agent_id := "", azure_openai_api_key := "sk-key",
    model_deployment_name := "gpt-4o" }

/-- The same configuration with the API credential unset (loaded as `""`). -/
def cfgNoKey : Config :=
  { cfgKeyed with azure_openai_api_key := "" }

/-- A dict with a successful lookup is not the empty dict. -/
theorem dictLookup_isEmpty_false {d : Dict} {k : String} {v : PyVal}
    (h : dictLookup d k = some v) : d.isEmpty = false := by
  cases d with
  | nil => simp [dictLookup] at h
  | cons hd tl => rfl

/-- C1: evaluation of the session at the claim's failing input.  With the
API credential unset the Connector yields no upstream socket, and the
session then sends the client TWO identical structured error frames — not
exactly one as claimed — because the body of `_send_error` is duplicated in
the source (a stray second copy of its docstring and send call); the relay
is indeed never attempted and the session ends. -/
theorem c1_two_error_frames_on_setup_failure :
    errorFrameCount (handle_connection cfgNoKey [] "u1" true false [none] []) = 2 ∧
    (handle_connection cfgNoKey [] "u1" true false [none] []).toClient =
      [errorFrame "Failed to connect to Azure Voice API",
       errorFrame "Failed to connect to Azure Voice API"] ∧
    (handle_connection cfgNoKey [] "u1" true false [none] []).toAzureForwarded = [] ∧
    (handle_connection cfgNoKey [] "u1" true false [none] []).configSent = none :=
  ⟨rfl, rfl, rfl, rfl⟩

/-- C3: counterexample path for the cleanup claim.  When the upstream
connection opens and the initial-configuration send then raises, the session
procedure returns with one upstream socket opened and zero closed:
`_connect_to_azure` swallows the exception and returns `None`, so
`handle_connection`'s `finally` sees no socket to close and the opened
socket leaks.  On the normal path the socket is closed exactly once. -/
theorem c3_upstream_socket_leak_on_config_send_failure :
    (handle_connection cfgKeyed [] "u1" true true [none] []).openedUpstream = 1 ∧
    (handle_connection cfgKeyed [] "u1" true true [none] []).closedUpstream = 0 ∧
    (handle_connection cfgKeyed [] "u1" true false [none] []).openedUpstream = 1 ∧
    (handle_connection cfgKeyed [] "u1" true false [none] []).closedUpstream = 1 :=
  ⟨rfl, rfl, rfl, rfl⟩

/-- C8: whenever the configured API credential is absent or empty, the
Connector returns no upstream socket without ever invoking
`websockets.connect`, for every agent id, registry state and network
behaviour. -/
theorem c8_missing_credential_no_network_attempt
    (cfg : Config) (registry : Registry) (agentId : Option PyVal)
    (connectOk sendCfgFails : Bool) (uuidStr : String)
    (hkey : cfg.azure_openai_api_key = "") :
    (connect_to_azure cfg registry agentId connectOk sendCfgFails uuidStr).ok = false ∧
    (connect_to_azure cfg registry agentId connectOk sendCfgFails uuidStr).attempted = false ∧
    (connect_to_azure cfg registry agentId connectOk sendCfgFails uuidStr).opened = 0 := by
  simp [connect_to_azure, hkey]

/-- C8 witness: a concrete session with the credential unset, a known agent
id and a non-empty registry. -/
theorem c8_missing_credential_no_network_attempt_witness :
    (connect_to_azure cfgNoKey [("id1", localAgentRecord "s" "i" "m" 1 2 0)]
        (some (.str "id1")) true false "u1").ok = false ∧
    (connect_to_azure cfgNoKey [("id1", localAgentRecord "s" "i" "m" 1 2 0)]
        (some (.str "id1")) true false "u1").attempted = false ∧
    (connect_to_azure cfgNoKey [("id1", localAgentRecord "s" "i" "m" 1 2 0)]
        (some (.str "id1")) true false "u1").opened = 0 :=
  c8_missing_credential_no_network_attempt cfgNoKey
    [("id1", localAgentRecord "s" "i" "m" 1 2 0)] (some (.str "id1")) true false "u1" rfl

/-- C2: when the relay's `asyncio.wait` returns — which happens exactly when
at least one forwarding task has finished, normally or by exception — every
still-pending task is cancelled before `_handle_message_forwarding` returns:
in the resulting pair no task is left running, finished tasks keep their
status, and a task that had not finished carries a cancellation request. -/
theorem c2_relay_cancels_sibling (t1 t2 : TaskStatus)
    (hdone : t1 = TaskStatus.finished ∨ t2 = TaskStatus.finished) :
    (handle_message_forwarding t1 t2).1 ≠ TaskStatus.running ∧
    (handle_message_forwarding t1 t2).2 ≠ TaskStatus.running ∧
    (t1 = TaskStatus.running →
      (handle_message_forwarding t1 t2).1 = TaskStatus.cancelRequested) ∧
    (t2 = TaskStatus.running →
      (handle_message_forwarding t1 t2).2 = TaskStatus.cancelRequested) ∧
    (t1 = TaskStatus.finished →
      (handle_message_forwarding t1 t2).1 = TaskStatus.finished) ∧
    (t2 = TaskStatus.finished →
      (handle_message_forwarding t1 t2).2 = TaskStatus.finished) := by
  cases t1 <;> cases t2 <;> decide

/-- C2 witness: the client→upstream task finished while the upstream→client
task was still running; the sibling ends up cancelled, not running. -/
theorem c2_relay_cancels_sibling_witness :
    (handle_message_forwarding TaskStatus.finished TaskStatus.running).2 =
      TaskStatus.cancelRequested :=
  (c2_relay_cancels_sibling TaskStatus.finished TaskStatus.running
    (Or.inl rfl)).2.2.2.1 rfl

/-- C4: a finite sequence of N messages received on either side before that
stream closes is forwarded to the other side exactly — all N of them,
byte-for-byte and in the original order, nothing dropped or added — in both
directions independently: the client→upstream loop stops at the close marker
and forwards the whole preceding prefix, and the upstream→client loop
forwards everything the upstream yields before closing. -/
theorem c4_relay_is_order_preserving_identity
    (msgs : List String) (closedTail : List (Option String)) :
    forward_client_to_azure (msgs.map Option.some ++ none :: closedTail) = msgs ∧
    forward_azure_to_client msgs = msgs := by
  constructor
  · induction msgs with
    | nil => rfl
    | cons m rest ih => simpa [forward_client_to_azure] using ih
  · induction msgs with
    | nil => rfl
    | cons m rest ih => simpa [forward_azure_to_client] using ih

/-- C9: the first client frame is consumed by the handshake and is never
forwarded upstream, whatever its content: the upstream-forwarded sequence of
a session is always either exactly the remaining frames up to the close
marker (when the relay runs) or empty (when setup fails), and whenever the
Connector succeeds it is exactly the remaining frames — relaying starts from
the client's second frame onward. -/
theorem c9_first_frame_consumed_never_forwarded
    (cfg : Config) (registry : Registry) (uuidStr : String)
    (connectOk sendCfgFails : Bool) (f : Option String)
    (rest : List (Option String)) (azureFrames : List String) :
    ((handle_connection cfg registry uuidStr connectOk sendCfgFails
        (f :: rest) azureFrames).toAzureForwarded = forward_client_to_azure rest ∨
     (handle_connection cfg registry uuidStr connectOk sendCfgFails
        (f :: rest) azureFrames).toAzureForwarded = []) ∧
    ((connect_to_azure cfg registry (get_agent_id_from_client f) connectOk
        sendCfgFails uuidStr).ok = true →
      (handle_connection cfg registry uuidStr connectOk sendCfgFails
        (f :: rest) azureFrames).toAzureForwarded = forward_client_to_azure rest) := by
  by_cases h : (connect_to_azure cfg registry (get_agent_id_from_client f)
      connectOk sendCfgFails uuidStr).ok = true
  · exact ⟨Or.inl (by simp [handle_connection, h]), fun _ => by simp [handle_connection, h]⟩
  · exact ⟨Or.inr (by simp [handle_connection, h]), fun hk => absurd hk h⟩

/-- C9 witness: a well-formed binary-style first frame is dropped even
though the connection succeeds; only the second frame onward is relayed. -/
theorem c9_first_frame_consumed_never_forwarded_witness :
    (handle_connection cfgKeyed [] "u1" true false
      [some "binary-audio-frame", some "m1", none] []).toAzureForwarded =
      forward_client_to_azure [some "m1", none] :=
  (c9_first_frame_consumed_never_forwarded cfgKeyed [] "u1" true false
    (some "binary-audio-frame") [some "m1", none] []).2 rfl

/-- C6: the Connector's upstream URL is the fixed base plus exactly one
routing parameter, chosen by priority over (agent id, resolved profile,
global configuration): a resolved remote-hosted profile routes by the
session's agent id; a resolved locally-defined profile routes by the
profile's model name; with no resolved profile, a configured default agent
id wins, otherwise the default model name is used; and every agent id not
present in the registry resolves to no profile, so the fallback chain
applies. -/
theorem c6_url_routing_priority
    (cfg : Config) (registry : Registry) (uuidStr aid m : String)
    (aidOpt : Option PyVal) (d : Dict)
    (connectOk sendCfgFails : Bool) :
    ((connect_to_azure cfg registry aidOpt connectOk sendCfgFails uuidStr).url =
      build_azure_url cfg aidOpt (resolveProfile registry aidOpt) uuidStr) ∧
    (aid ≠ "" → get_agent registry aid = some d →
      dictLookup d "is_azure_agent" = some (.bool true) →
      build_azure_url cfg (some (.str aid))
          (resolveProfile registry (some (.str aid))) uuidStr =
        azureBaseUrl cfg uuidStr ++ "&agent-id=" ++ aid) ∧
    (aid ≠ "" → get_agent registry aid = some d →
      dictLookup d "is_azure_agent" = some (.bool false) →
      dictLookup d "model" = some (.str m) →
      build_azure_url cfg (some (.str aid))
          (resolveProfile registry (some (.str aid))) uuidStr =
        azureBaseUrl cfg uuidStr ++ "&model=" ++ m) ∧
    (resolveProfile registry aidOpt = none → cfg.agent_id ≠ "" →
      build_azure_url cfg aidOpt (resolveProfile registry aidOpt) uuidStr =
        azureBaseUrl cfg uuidStr ++ "&agent-id=" ++ cfg.agent_id) ∧
    (resolveProfile registry aidOpt = none → cfg.agent_id = "" →
      build_azure_url cfg aidOpt (resolveProfile registry aidOpt) uuidStr =
        azureBaseUrl cfg uuidStr ++ "&model=" ++ cfg.model_deployment_name) ∧
    (aid ∉ registry.map Prod.fst → get_agent registry aid = none) := by
  refine ⟨?_, ?_, ?_, ?_, ?_, ?_⟩
  · by_cases h1 : cfg.azure_openai_api_key = "" <;> cases h2 : connectOk <;>
      cases h3 : sendCfgFails <;>
      rcases h4 : initialConfigMessage cfg (resolveProfile registry aidOpt)
        with msg | msg <;>
      simp [connect_to_azure, h1, h2, h3, h4]
  · intro ha hg hflag
    have hne : d.isEmpty = false := dictLookup_isEmpty_false hflag
    have hres : resolveProfile registry (some (.str aid)) = some d := by
      simp [resolveProfile, pyTruthyOpt, pyTruthy, ha, hg]
    rw [hres]
    simp [build_azure_url, hne, hflag, pyTruthyOpt, pyTruthy, pyFStrOpt, pyFStr]
  · intro ha hg hflag hm
    have hne : d.isEmpty = false := dictLookup_isEmpty_false hflag
    have hres : resolveProfile registry (some (.str aid)) = some d := by
      simp [resolveProfile, pyTruthyOpt, pyTruthy, ha, hg]
    rw [hres]
    simp [build_azure_url, hne, hflag, pyTruthyOpt, pyTruthy, dictGetD, hm, pyFStr]
  · intro h hne
    rw [h]
    simp [build_azure_url, buildUrlFallback, hne]
  · intro h he
    rw [h]
    simp [build_azure_url, buildUrlFallback, he]
  · intro h
    induction registry with
    | nil => rfl
    | cons hd tl ih =>
      obtain ⟨k, d'⟩ := hd
      simp only [List.map_cons, List.mem_cons, not_or] at h
      obtain ⟨hk, htl⟩ := h
      simp only [get_agent]
      rw [if_neg (fun hkk => hk hkk.symm)]
      exact ih htl

/-- C6 witness: a remote-hosted profile registered under `agent-7` routes
the URL by the session's agent id. -/
theorem c6_url_routing_priority_witness :
    build_azure_url cfgKeyed (some (.str "agent-7"))
        (resolveProfile [("agent-7", azureAgentRecord "s" "agent-7" "i" "m" 1 2 0)]
          (some (.str "agent-7"))) "u1" =
      azureBaseUrl cfgKeyed "u1" ++ "&agent-id=" ++ "agent-7" :=
  (c6_url_routing_priority cfgKeyed
    [("agent-7", azureAgentRecord "s" "agent-7" "i" "m" 1 2 0)] "u1" "agent-7" "m"
    (some (.str "agent-7")) (azureAgentRecord "s" "agent-7" "i" "m" 1 2 0)
    true false).2.1 (by decide) rfl rfl

/-- C10: every record stored in the registry by either creation path of
`create_agent` carries `model`, `instructions`, `temperature`, `max_tokens`
and a boolean `is_azure_agent` flag, so building the initial upstream
configuration message from a resolved profile never fails on a missing key
despite its unguarded accesses. -/
theorem c10_agent_records_complete
    (cfg : Config) (sid aid ins mdl : String) (temp mtok : ℚ) (ts : Nat) :
    dictLookup (azureAgentRecord sid aid ins mdl temp mtok ts) "model"
      = some (.str mdl) ∧
    dictLookup (azureAgentRecord sid aid ins mdl temp mtok ts) "instructions"
      = some (.str ins) ∧
    dictLookup (azureAgentRecord sid aid ins mdl temp mtok ts) "temperature"
      = some (.num temp) ∧
    dictLookup (azureAgentRecord sid aid ins mdl temp mtok ts) "max_tokens"
      = some (.num mtok) ∧
    dictLookup (azureAgentRecord sid aid ins mdl temp mtok ts) "is_azure_agent"
      = some (.bool true) ∧
    dictLookup (localAgentRecord sid ins mdl temp mtok ts) "model"
      = some (.str mdl) ∧
    dictLookup (localAgentRecord sid ins mdl temp mtok ts) "instructions"
      = some (.str ins) ∧
    dictLookup (localAgentRecord sid ins mdl temp mtok ts) "temperature"
      = some (.num temp) ∧
    dictLookup (localAgentRecord sid ins mdl temp mtok ts) "max_tokens"
      = some (.num mtok) ∧
    dictLookup (localAgentRecord sid ins mdl temp mtok ts) "is_azure_agent"
      = some (.bool false) ∧
    configOk (initialConfigMessage cfg
      (some (azureAgentRecord sid aid ins mdl temp mtok ts))) = true ∧
    configOk (initialConfigMessage cfg
      (some (localAgentRecord sid ins mdl temp mtok ts))) = true :=
  ⟨rfl, rfl, rfl, rfl, rfl, rfl, rfl, rfl, rfl, rfl, rfl, rfl⟩

/-- Extracting the session dict back out of the envelope. -/
theorem sessionOf_mk (s : Dict) : sessionOf (.ok (mkSessionUpdate s)) = s := rfl

/-- When building the initial configuration message succeeds, its session
dict is the fixed defaults followed by zero or more appended overrides. -/
theorem initialConfig_session_shape (cfg : Config) (p : Option Dict)
    (hok : configOk (initialConfigMessage cfg p) = true) :
    ∃ extra, sessionOf (initialConfigMessage cfg p) = baseSessionFields ++ extra := by
  rcases p with _ | d
  · exact ⟨[], by simp [initialConfigMessage, sessionOf_mk]⟩
  · by_cases hc : (!d.isEmpty && !(pyTruthyOpt (dictLookup d "is_azure_agent"))) = true
    · rcases ho : overrideFields cfg d with e | extra
      · exfalso
        simp [initialConfigMessage, hc, ho, configOk] at hok
      · exact ⟨extra, by simp [initialConfigMessage, hc, ho, sessionOf_mk]⟩
    · exact ⟨[], by simp [initialConfigMessage, hc, sessionOf_mk]⟩

/-- C5: the configuration message sent upstream always carries the fixed
defaults (modalities, semantic-VAD turn detection, deep noise suppression,
server echo cancellation, lisa/casual-sitting avatar); a resolved profile
whose `is_azure_agent` flag is false additionally contributes `model`,
`instructions`, `temperature` and `max_response_output_tokens` with the
profile's values; a remote-hosted profile and the no-profile case both yield
the bare defaults, which contain none of those four keys. -/
theorem c5_initial_config_contents
    (cfg : Config) (p : Option Dict) (d : Dict) (vM vI vT vK : PyVal) (b : Bool)
    (hok : configOk (initialConfigMessage cfg p) = true)
    (hM : dictLookup d "model" = some vM)
    (hI : dictLookup d "instructions" = some vI)
    (hT : dictLookup d "temperature" = some vT)
    (hK : dictLookup d "max_tokens" = some vK)
    (hB : dictLookup d "is_azure_agent" = some (.bool b)) :
    dictLookup (sessionOf (initialConfigMessage cfg p)) "modalities"
      = some (.arr [.str "text", .str "audio"]) ∧
    dictLookup (sessionOf (initialConfigMessage cfg p)) "turn_detection"
      = some (.obj [("type", .str "azure_semantic_vad")]) ∧
    dictLookup (sessionOf (initialConfigMessage cfg p)) "input_audio_noise_reduction"
      = some (.obj [("type", .str "azure_deep_noise_suppression")]) ∧
    dictLookup (sessionOf (initialConfigMessage cfg p)) "input_audio_echo_cancellation"
      = some (.obj [("type", .str "server_echo_cancellation")]) ∧
    dictLookup (sessionOf (initialConfigMessage cfg p)) "avatar"
      = some (.obj [("character", .str "lisa"), ("style", .str "casual-sitting")]) ∧
    (b = true → sessionOf (initialConfigMessage cfg (some d)) = baseSessionFields) ∧
    (b = false → sessionOf (initialConfigMessage cfg (some d)) =
      baseSessionFields ++
        [("model", vM), ("instructions", vI), ("temperature", vT),
         ("max_response_output_tokens", vK)]) ∧
    dictLookup baseSessionFields "model" = none ∧
    dictLookup baseSessionFields "instructions" = none ∧
    dictLookup baseSessionFields "temperature" = none ∧
    dictLookup baseSessionFields "max_response_output_tokens" = none ∧
    sessionOf (initialConfigMessage cfg none) = baseSessionFields := by
  obtain ⟨extra, hshape⟩ := initialConfig_session_shape cfg p hok
  have hne : d.isEmpty = false := dictLookup_isEmpty_false hB
  have hTruthy : pyTruthyOpt (dictLookup d "is_azure_agent") = b := by
    rw [hB]; cases b <;> rfl
  have hov : overrideFields cfg d =
      .ok [("model", vM), ("instructions", vI), ("temperature", vT),
           ("max_response_output_tokens", vK)] := by
    simp [overrideFields, hI, hT, hK, dictGetD, hM]
  refine ⟨?_, ?_, ?_, ?_, ?_, ?_, ?_, rfl, rfl, rfl, rfl, rfl⟩
  · rw [hshape]; rfl
  · rw [hshape]; rfl
  · rw [hshape]; rfl
  · rw [hshape]; rfl
  · rw [hshape]; rfl
  · intro hb; subst hb
    simp [initialConfigMessage, hne, hTruthy, sessionOf_mk]
  · intro hb; subst hb
    simp [initialConfigMessage, hne, hTruthy, hov, sessionOf_mk]

/-- C5 witness: a concrete locally-defined profile contributes its four
values after the fixed defaults. -/
theorem c5_initial_config_contents_witness :
    sessionOf (initialConfigMessage cfgKeyed
        (some (localAgentRecord "s" "i" "m" 1 2 0))) =
      baseSessionFields ++
        [("model", .str "m"), ("instructions", .str "i"), ("temperature", .num 1),
         ("max_response_output_tokens", .num 2)] :=
  (c5_initial_config_contents cfgKeyed (some (localAgentRecord "s" "i" "m" 1 2 0))
      (localAgentRecord "s" "i" "m" 1 2 0) (.str "m") (.str "i") (.num 1) (.num 2)
      false rfl rfl rfl rfl rfl rfl).2.2.2.2.2.2.1 rfl

/-- Whether a parsed document is a JSON object (a Python dict). -/
def isObjVal : PyVal → Bool
  | .obj _ => true
  | _ => false

/-- C7: `_get_agent_id_from_client` is total (every exception is caught
inside it) and returns `None` for an absent first message, an empty one, a
parse failure, a non-object document, a document whose `type` is not
`session.update`, and a `session.update` without a nested `agent_id`; it
returns the agent id exactly in the remaining case; an absent id makes the
Connector resolve no profile, so the session proceeds with the default
configuration. -/
theorem c7_agent_id_extraction
    (s : String) (v : PyVal) (fields sessionFields : Dict) (a : String)
    (registry : Registry) :
    get_agent_id_from_client none = none ∧
    get_agent_id_from_client (some "") = none ∧
    (jsonLoads s = none → get_agent_id_from_client (some s) = none) ∧
    (jsonLoads s = some v → isObjVal v = false →
      get_agent_id_from_client (some s) = none) ∧
    (jsonLoads s = some (.obj fields) →
      dictLookup fields "type" ≠ some (.str "session.update") →
      get_agent_id_from_client (some s) = none) ∧
    (jsonLoads s = some (.obj fields) →
      dictLookup fields "type" = some (.str "session.update") →
      dictGetD fields "session" (.obj []) = .obj sessionFields →
      dictLookup sessionFields "agent_id" = none →
      get_agent_id_from_client (some s) = none) ∧
    (jsonLoads s = some (.obj fields) →
      dictLookup fields "type" = some (.str "session.update") →
      dictGetD fields "session" (.obj []) = .obj sessionFields →
      dictLookup sessionFields "agent_id" = some (.str a) →
      get_agent_id_from_client (some s) = some (.str a)) ∧
    resolveProfile registry none = none := by
  refine ⟨rfl, rfl, ?_, ?_, ?_, ?_, ?_, rfl⟩
  · intro h
    by_cases hs : s = ""
    · simp [get_agent_id_from_client, hs]
    · simp [get_agent_id_from_client, hs, h]
  · intro h hobj
    by_cases hs : s = ""
    · simp [get_agent_id_from_client, hs]
    · cases v <;> simp [isObjVal] at hobj ⊢ <;>
        simp [get_agent_id_from_client, hs, h]
  · intro h hne
    by_cases hs : s = ""
    · simp [get_agent_id_from_client, hs]
    · rcases ht : dictLookup fields "type" with _ | tv
      · simp [get_agent_id_from_client, hs, h, ht]
      · cases tv <;> simp [get_agent_id_from_client, hs, h, ht]
        next t =>
          intro htt
          exact absurd (ht.trans (by rw [htt])) hne
  · intro h ht hsess hnone
    by_cases hs : s = ""
    · simp [get_agent_id_from_client, hs]
    · simp [get_agent_id_from_client, hs, h, ht, hsess, hnone]
  · intro h ht hsess ha
    have hs : s ≠ "" := by
      intro hs
      rw [hs] at h
      exact Option.noConfusion h
    simp [get_agent_id_from_client, hs, h, ht, hsess, ha]

/-- C7 witness: a well-formed handshake frame yields its agent id. -/
theorem c7_agent_id_extraction_witness :
    get_agent_id_from_client
        (some "\x7b\"type\": \"session.update\", \"session\": \x7b\"agent_id\": \"abc-1\"\x7d\x7d")
      = some (.str "abc-1") :=
  (c7_agent_id_extraction
      "\x7b\"type\": \"session.update\", \"session\": \x7b\"agent_id\": \"abc-1\"\x7d\x7d"
      .null
      [("type", .str "session.update"), ("session", .obj [("agent_id", .str "abc-1")])]
      [("agent_id", .str "abc-1")] "abc-1" []).2.2.2.2.2.2.1 rfl rfl rfl rfl

end VoiceProxy
